import Mathlib

/-!
Shallow embedding of `src/Extraction/trends_scrapper_2023.py`, the checkpointed
Google-Trends collection loop of the Fisheries_Search_Trends repository, together
with proofs of the claims about it.

Dates are represented as proleptic-Gregorian rata-die day numbers (day 1 =
January 1 of year 1, a Monday), so that the pandas weekly Sunday-based date
range `pd.date_range(start=f'{year}-01-01', end=f'{year}-12-31', freq='W-SUN')`
becomes a computable list of day numbers.  The network (pytrends) is abstracted
as an oracle giving, per keyword and per attempt, the outcome of one
`build_payload` / `interest_over_time` round trip.
-/

set_option linter.unusedVariables false

namespace FisheriesTrends

/- ==========================================
   Calendar model (the pandas W-SUN date range)
   ========================================== -/

/-- Gregorian leap-year test. -/
def isLeap (y : Nat) : Bool :=
  y % 4 == 0 && (y % 100 != 0 || y % 400 == 0)

/-- Number of days in year `y`. -/
def daysInYear (y : Nat) : Nat := if isLeap y then 366 else 365

/-- Number of days strictly before year `y` in the proleptic Gregorian
calendar (rata-die convention, years counted from 1). -/
def daysBeforeYear (y : Nat) : Nat :=
  365 * (y - 1) + (y - 1) / 4 + (y - 1) / 400 - (y - 1) / 100

/-- Rata-die day number of January 1 of year `y`. -/
def jan1RD (y : Nat) : Nat := daysBeforeYear y + 1

/-- Day 1 (January 1 of year 1) is a Monday, so a rata-die day number is a
Sunday exactly when it is divisible by 7. -/
def isSunday (rd : Nat) : Bool := rd % 7 == 0

/-- The list of week-ending Sundays of year `y`, in increasing order: the model
of `pd.date_range(start=f'{y}-01-01', end=f'{y}-12-31', freq='W-SUN')` used by
`fetch_city_trends` to zero-fill empty results. -/
def sundaysOfYear (y : Nat) : List Nat :=
  ((List.range (daysInYear y)).map (fun i => jan1RD y + i)).filter
    (fun rd => isSunday rd)

/- ==========================================
   Configuration (section 1 of the script)
   ========================================== -/

/-- The `year` argument of `fetch_city_trends`.  The script's configuration
line `YEAR = 2021, 2022, 2023, 2024` makes `YEAR` a Python tuple, so the
argument can be either a single year or that tuple. -/
inductive YearArg where
  | year (y : Nat)
  | tuple (ys : List Nat)
deriving DecidableEq

/-- `YEAR = 2021, 2022, 2023, 2024` (line 13 of the script): a 4-tuple, not a
single year. -/
def YEAR : YearArg := YearArg.tuple [2021, 2022, 2023, 2024]

/-- `SEARCH_TERMS` (lines 14-16 of the script). -/
def SEARCH_TERMS : List String :=
  ["Fishing", "Bass Fishing", "Trout Fishing", "Fly Fishing", "Ice Fishing"]

/-- `MAX_CITIES_PER_RUN = 50` (line 19 of the script). -/
def MAX_CITIES_PER_RUN : Nat := 50

/-- Models `pd.date_range(start=f'{year}-01-01', end=f'{year}-12-31',
freq='W-SUN')` (line 74).  For a single integer year the f-string is a valid
date and the range is the list of Sundays of that year.  When `year` is the
tuple `YEAR`, the f-string renders the tuple (`"(2021, 2022, 2023, 2024)-01-01"`),
which is not a parseable date, so `pd.date_range` raises; this happens before
the per-keyword `try` block, hence is modelled as `Except.error`. -/
def dateRangeOf : YearArg → Except Unit (List Nat)
  | YearArg.year y => Except.ok (sundaysOfYear y)
  | YearArg.tuple _ => Except.error ()

/- ==========================================
   Unit fetcher: fetch_city_trends (lines 63-129)
   ========================================== -/

/-- Outcome of one network attempt (`build_payload` + `interest_over_time`)
for one keyword: an empty frame, a data frame of (date, value) rows, an
exception whose message contains "429" (rate limiting), or any other
exception. -/
inductive SourceResult where
  | empty
  | data (rows : List (Nat × Int))
  | rateLimited
  | otherError
deriving DecidableEq

/-- One standardized output record of the fetcher: the columns
`['date', 'search_term', 'search_count']` kept by line 106. -/
structure Obs where
  date : Nat
  search_term : String
  search_count : Int
deriving DecidableEq

/-- Result of the per-keyword retry loop: the observations appended to
`all_data`, the number of network attempts made, and the backoff sleeps (in
seconds) performed between attempts, in order. -/
structure TermRun where
  obs : List Obs
  attempts : Nat
  waits : List Nat
deriving DecidableEq

/-- The per-keyword `while retry_count < max_retries` loop of
`fetch_city_trends` (lines 79-125), for an attempt oracle `src` giving the
outcome of each attempt.  The first argument is the remaining iteration budget
`max_retries - retry_count` (positive exactly when the `while` condition
holds) and the second is the current `retry_count`, which is also the number
of attempts already made, since every non-429 outcome leaves the loop.
On a 429 the count is incremented and, if the loop will run again, the code
sleeps `2 ** retry_count * 60` seconds with the incremented count (line 116);
on reaching `max_retries` it breaks with nothing appended; an empty frame is
replaced by a zero row for every date of `dateRange` (lines 89-97); any other
exception breaks with nothing appended (lines 122-125).  The randomized
15-30 second pacing sleep before each attempt (line 83) is untracked. -/
def fetchTermLoop (src : Nat → SourceResult) (dateRange : List Nat)
    (term : String) : Nat → Nat → TermRun
  | 0, _ => ⟨[], 0, []⟩
  | Nat.succ remaining, rc =>
    match src rc with
    | SourceResult.empty =>
        ⟨dateRange.map (fun d => ⟨d, term, 0⟩), 1, []⟩
    | SourceResult.data rows =>
        ⟨rows.map (fun p => ⟨p.1, term, p.2⟩), 1, []⟩
    | SourceResult.rateLimited =>
        if remaining = 0 then ⟨[], 1, []⟩
        else
          let R := fetchTermLoop src dateRange term remaining (rc + 1)
          ⟨R.obs, R.attempts + 1, 2 ^ (rc + 1) * 60 :: R.waits⟩
    | SourceResult.otherError => ⟨[], 1, []⟩

/-- The whole retry loop for one keyword, started at `retry_count = 0`. -/
def fetchTermRun (src : Nat → SourceResult) (dateRange : List Nat)
    (term : String) (maxRetries : Nat) : TermRun :=
  fetchTermLoop src dateRange term maxRetries 0

/-- The `for term in keywords` loop (lines 76-129): concatenation, in keyword
order, of the records produced for each keyword (`pd.concat(all_data)`). -/
def fetchAll (src : String → Nat → SourceResult) (dateRange : List Nat)
    (maxRetries : Nat) : List String → List Obs
  | [] => []
  | t :: ts =>
      (fetchTermRun (src t) dateRange t maxRetries).obs
        ++ fetchAll src dateRange maxRetries ts

/-- `fetch_city_trends(geo_code, keywords, year, max_retries)` (lines 63-129).
The `geo_code` argument only selects which oracle the network answers with, so
it is carried but unused by the pure model.  Building the date range happens
before the keyword loop and outside any `try`, so an unparseable `year`
(the tuple `YEAR`) raises out of the function, modelled by `Except.error`. -/
def fetch_city_trends (src : String → Nat → SourceResult) (geo_code : String)
    (keywords : List String) (year : YearArg) (max_retries : Nat) :
    Except Unit (List Obs) :=
  match dateRangeOf year with
  | Except.error e => Except.error e
  | Except.ok dr => Except.ok (fetchAll src dr max_retries keywords)

/- ==========================================
   Data model of the catalog and the durable store
   ========================================== -/

/-- One row of `usa_cities.csv` (the work-unit catalog), with the columns the
script reads: `location_name`, `geo_code`, `country`, `state_province`,
`latitude`, `longitude`. -/
structure CityRow where
  location_name : String
  geo_code : String
  country : String
  state_province : String
  latitude : Int
  longitude : Int
deriving DecidableEq

/-- One row of the durable store `trends_checkpoint.csv`, with the canonical
column order fixed at line 172 of the script:
`date, latitude, longitude, country, state, search_count, location, geo_code,
search_term, year`.  The `year` column receives the script's `YEAR` value
verbatim (line 167), hence has type `YearArg`. -/
structure StoreRow where
  date : Nat
  latitude : Int
  longitude : Int
  country : String
  state : String
  search_count : Int
  location : String
  geo_code : String
  search_term : String
  year : YearArg
deriving DecidableEq

/-- Metadata attachment (lines 162-173): every fetched observation is extended
with the city's catalog columns and the run's `YEAR` value. -/
def attachMetadata (c : CityRow) (yearArg : YearArg) (obs : List Obs) :
    List StoreRow :=
  obs.map (fun o =>
    ⟨o.date, c.latitude, c.longitude, c.country, c.state_province,
      o.search_count, c.location_name, c.geo_code, o.search_term, yearArg⟩)

/-- The durable store file as the driver-facing state: `none` when
`trends_checkpoint.csv` does not exist, `some rows` when it exists with the
canonical header and the given data rows. -/
def storeRows : Option (List StoreRow) → List StoreRow
  | none => []
  | some rs => rs

/-- `df_trends.to_csv(OUTPUT_FILE, mode='a', header=write_header)` (lines
175-178): append the rows, writing the header (creating the file) only when
the file does not yet exist. -/
def appendStore (st : Option (List StoreRow)) (rows : List StoreRow) :
    Option (List StoreRow) :=
  match st with
  | none => some rows
  | some old => some (old ++ rows)

/-- The completed-set derived from a well-formed store, as
`get_completed_cities` computes it (lines 41-58): the set of values of the
`geo_code` column, empty when the file is absent. -/
def completedOfStore (st : Option (List StoreRow)) : Finset String :=
  ((storeRows st).map (fun r => r.geo_code)).toFinset

/-- Observable outcome of one driver invocation: the final store state, the
`successful_cities` and `failed_cities` counters, and whether the run stopped
early through the critical-failure `except` branch (lines 193-198). -/
structure RunResult where
  store : Option (List StoreRow)
  successful : Nat
  failed : Nat
  crashed : Bool
deriving DecidableEq

/-- The main `for index, row in cities_to_process.iterrows()` loop (lines
151-198).  `fetchFor c` is the outcome of `fetch_city_trends` for city `c`:
`Except.ok obs` when it returns normally, `Except.error ()` when an exception
escapes the per-entity `try` (the critical-failure path).  A non-empty result
is enriched with metadata and appended immediately; an empty result only
increments `failed_cities`; an exception increments `failed_cities` and
`break`s out of the loop. -/
def runLoop (fetchFor : CityRow → Except Unit (List Obs)) (yearArg : YearArg) :
    List CityRow → Option (List StoreRow) → Nat → Nat → RunResult
  | [], st, succ, fail => ⟨st, succ, fail, false⟩
  | c :: rest, st, succ, fail =>
    match fetchFor c with
    | Except.error _ => ⟨st, succ, fail + 1, true⟩
    | Except.ok obs =>
      if obs.isEmpty then
        runLoop fetchFor yearArg rest st succ (fail + 1)
      else
        runLoop fetchFor yearArg rest
          (appendStore st (attachMetadata c yearArg obs)) (succ + 1) fail

/-- `df_cities[~df_cities['geo_code'].isin(completed_geos)]` (line 144):
the catalog restricted, in catalog order, to cities not yet completed. -/
def remainingCities (catalog : List CityRow) (completed : Finset String) :
    List CityRow :=
  catalog.filter (fun c => decide (c.geo_code ∉ completed))

/-- One invocation of the run driver (lines 140-198): compute the completed
set from the store, keep the first `quota` remaining cities
(`.head(MAX_CITIES_PER_RUN)`), and run the main loop over them with both
counters starting at zero. -/
def run_driver (fetchFor : CityRow → Except Unit (List Obs))
    (yearArg : YearArg) (catalog : List CityRow) (quota : Nat)
    (st : Option (List StoreRow)) : RunResult :=
  runLoop fetchFor yearArg
    ((remainingCities catalog (completedOfStore st)).take quota) st 0 0

/-- The catalog-wide remaining-work set: catalog codes minus the completed
codes derived from the store. -/
def remainingSet (catalog : List CityRow) (st : Option (List StoreRow)) :
    Finset String :=
  (catalog.map (fun c => c.geo_code)).toFinset \ completedOfStore st

/-- The rows a run of the main loop appends to the store, in order: nothing
for a city whose fetch is empty, nothing at and after the first city whose
fetch raises. -/
def loopAppended (fetchFor : CityRow → Except Unit (List Obs))
    (yearArg : YearArg) : List CityRow → List StoreRow
  | [] => []
  | c :: rest =>
    match fetchFor c with
    | Except.error _ => []
    | Except.ok obs =>
      if obs.isEmpty then loopAppended fetchFor yearArg rest
      else attachMetadata c yearArg obs ++ loopAppended fetchFor yearArg rest

/-- The (entity code, keyword, week) triple of a store row, the key the
durable store is deduplicated on. -/
def tripleOf (r : StoreRow) : String × String × Nat :=
  (r.geo_code, r.search_term, r.date)

/-- All key triples of a store, with multiplicity. -/
def storeTriples (st : Option (List StoreRow)) :
    List (String × String × Nat) :=
  (storeRows st).map tripleOf

/- ==========================================
   Progress tracker over raw files: get_completed_cities (lines 41-58)
   ========================================== -/

/-- Content of an existing `trends_checkpoint.csv` as seen by `pd.read_csv`:
a zero-byte / structurally empty file (`pd.errors.EmptyDataError`), a table
with the canonical header, some other parseable table with the given columns
and `geo_code` values (empty list when the column is missing), or a file on
which `read_csv` raises any other exception. -/
inductive FileContent where
  | emptyContent
  | rowsContent (rows : List StoreRow)
  | otherTable (cols : List String) (geoVals : List String)
  | malformed
deriving DecidableEq

/-- The durable store file on disk: absent, or present with some content. -/
inductive StoreFile where
  | absent
  | present (content : FileContent)
deriving DecidableEq

/-- The canonical column order written at line 172. -/
def storeCols : List String :=
  ["date", "latitude", "longitude", "country", "state", "search_count",
   "location", "geo_code", "search_term", "year"]

/-- `get_completed_cities()` (lines 41-58): the empty set when the file is
absent; otherwise `pd.read_csv` is attempted, `EmptyDataError` is caught and
yields the empty set, a parsed table yields the set of its `geo_code` values
when that column exists and the empty set otherwise (falling through to
`return set()`), and any other `read_csv` exception propagates out of the
function, modelled as `Except.error`. -/
def get_completed_cities : StoreFile → Except Unit (Finset String)
  | StoreFile.absent => Except.ok ∅
  | StoreFile.present FileContent.emptyContent => Except.ok ∅
  | StoreFile.present (FileContent.rowsContent rows) =>
      Except.ok ((rows.map (fun r => r.geo_code)).toFinset)
  | StoreFile.present (FileContent.otherTable cols geoVals) =>
      if "geo_code" ∈ cols then Except.ok geoVals.toFinset else Except.ok ∅
  | StoreFile.present FileContent.malformed => Except.error ()

/-- Driver-facing store state of an on-disk file: an absent file is `none`
and a canonical-header table carries its rows.  A pre-existing file with any
other content also makes `os.path.exists` true (so appends would not write a
header); its unknowable row content is modelled as the empty row list, and no
claim inspects the post-run store in those cases. -/
def fileStore : StoreFile → Option (List StoreRow)
  | StoreFile.absent => none
  | StoreFile.present (FileContent.rowsContent rows) => some rows
  | StoreFile.present _ => some []

/-- The module-level script (lines 140-198) as one function: read the
completed set — an exception from `get_completed_cities` kills the process
before any city is handled — then run the bounded main loop, fetching each
remaining city with `fetch_city_trends(geo, SEARCH_TERMS, YEAR)` for the
network oracle `src`. -/
def script_run (src : String → String → Nat → SourceResult)
    (yearArg : YearArg) (catalog : List CityRow) (quota : Nat)
    (file : StoreFile) : Except Unit RunResult :=
  match get_completed_cities file with
  | Except.error e => Except.error e
  | Except.ok completed =>
      Except.ok (runLoop
        (fun c => fetch_city_trends (src c.geo_code) c.geo_code SEARCH_TERMS
          yearArg 3)
        yearArg
        ((catalog.filter (fun c => decide (c.geo_code ∉ completed))).take quota)
        (fileStore file) 0 0)

/-- Whether an `Except` computation returned normally. -/
def exceptIsOk {α : Type} : Except Unit α → Bool
  | Except.ok _ => true
  | Except.error _ => false

/- ==========================================
   Concrete inputs used by the claim evaluations and witnesses
   ========================================== -/

/-- A geo-indexed source oracle answering every attempt with an empty frame. -/
def scriptSrcEmpty : String → String → Nat → SourceResult :=
  fun _ _ _ => SourceResult.empty

/-- A source oracle that answers every attempt with an empty frame. -/
def srcEmptyOracle : String → Nat → SourceResult := fun _ _ => SourceResult.empty

/-- A source oracle that rate-limits every attempt. -/
def srcRateLimitedOracle : String → Nat → SourceResult :=
  fun _ _ => SourceResult.rateLimited

/-- The single-entity catalog of the spec's end-to-end example:
geo code US-A, latitude 40, longitude -70. -/
def cityUS_A : CityRow := CityRow.mk "CityA" "US-A" "USA" "RegionA" 40 (-70)

def cityA : CityRow := CityRow.mk "A" "US-A" "USA" "S" 1 2

def cityB : CityRow := CityRow.mk "B" "US-B" "USA" "S" 3 4

def cityC : CityRow := CityRow.mk "C" "US-C" "USA" "S" 5 6

/-- A three-city catalog with distinct codes. -/
def catalog3 : List CityRow := [cityA, cityB, cityC]

/-- A per-city fetch outcome with one observation row. -/
def fetchOneRow : CityRow → Except Unit (List Obs) :=
  fun _ => Except.ok [Obs.mk 738521 "X" 5]

/-- A per-city fetch outcome that raises. -/
def fetchErr : CityRow → Except Unit (List Obs) := fun _ => Except.error ()

/-- A per-city fetch outcome that returns no observations. -/
def fetchEmptyObs : CityRow → Except Unit (List Obs) := fun _ => Except.ok []

/- ==========================================
   Theorems: calendar facts
   ========================================== -/

theorem sundaysOfYear_nodup (y : Nat) : (sundaysOfYear y).Nodup := by
  have h1 : ((List.range (daysInYear y)).map (fun i => jan1RD y + i)).Nodup := by
    refine List.Nodup.map ?_ (List.nodup_range _)
    intro a b hab
    have h2 : jan1RD y + a = jan1RD y + b := hab
    omega
  exact h1.filter _

/- ==========================================
   Helper lemmas about the driver loop
   ========================================== -/

theorem storeRows_appendStore (st : Option (List StoreRow))
    (rows : List StoreRow) :
    storeRows (appendStore st rows) = storeRows st ++ rows := by
  cases st <;> simp [appendStore, storeRows]

theorem runLoop_storeRows (f : CityRow → Except Unit (List Obs)) (y : YearArg) :
    ∀ (cs : List CityRow) (st : Option (List StoreRow)) (s0 f0 : Nat),
      storeRows ((runLoop f y cs st s0 f0).store)
        = storeRows st ++ loopAppended f y cs := by
  intro cs
  induction cs with
  | nil => intro st s0 f0; simp [runLoop, loopAppended]
  | cons c rest ih =>
    intro st s0 f0
    cases hfc : f c with
    | error e => simp [runLoop, loopAppended, hfc]
    | ok obs =>
      by_cases he : obs.isEmpty
      · simp [runLoop, loopAppended, hfc, he, ih]
      · simp [runLoop, loopAppended, hfc, he, ih, storeRows_appendStore,
          List.append_assoc]

theorem runLoop_shift (f : CityRow → Except Unit (List Obs)) (y : YearArg) :
    ∀ (cs : List CityRow) (st : Option (List StoreRow)) (s0 f0 : Nat),
      (runLoop f y cs st s0 f0).successful
          = s0 + (runLoop f y cs st 0 0).successful ∧
      (runLoop f y cs st s0 f0).failed
          = f0 + (runLoop f y cs st 0 0).failed ∧
      (runLoop f y cs st s0 f0).crashed = (runLoop f y cs st 0 0).crashed ∧
      (runLoop f y cs st s0 f0).store = (runLoop f y cs st 0 0).store := by
  intro cs
  induction cs with
  | nil => intro st s0 f0; simp [runLoop]
  | cons c rest ih =>
    intro st s0 f0
    cases hfc : f c with
    | error e => simp [runLoop, hfc]
    | ok obs =>
      cases he : obs.isEmpty with
      | true =>
        obtain ⟨a1, b1, c1, d1⟩ := ih st s0 (f0 + 1)
        obtain ⟨a2, b2, c2, d2⟩ := ih st 0 1
        simp only [runLoop, hfc, he, if_true]
        refine ⟨?_, ?_, ?_, ?_⟩
        · rw [a1, a2]; omega
        · rw [b1, b2]; omega
        · rw [c1, c2]
        · rw [d1, d2]
      | false =>
        obtain ⟨a1, b1, c1, d1⟩ :=
          ih (appendStore st (attachMetadata c y obs)) (s0 + 1) f0
        obtain ⟨a2, b2, c2, d2⟩ :=
          ih (appendStore st (attachMetadata c y obs)) 1 0
        simp only [runLoop, hfc, he, Bool.false_eq_true, if_false]
        refine ⟨?_, ?_, ?_, ?_⟩
        · rw [a1, a2]; omega
        · rw [b1, b2]; omega
        · rw [c1, c2]
        · rw [d1, d2]

theorem mem_loopAppended_geo (f : CityRow → Except Unit (List Obs))
    (y : YearArg) :
    ∀ (cs : List CityRow) (r : StoreRow), r ∈ loopAppended f y cs →
      ∃ c ∈ cs, r.geo_code = c.geo_code := by
  intro cs
  induction cs with
  | nil => intro r hr; simp [loopAppended] at hr
  | cons c rest ih =>
    intro r hr
    cases hfc : f c with
    | error e => simp [loopAppended, hfc] at hr
    | ok obs =>
      cases he : obs.isEmpty with
      | true =>
        simp only [loopAppended, hfc, he, if_true] at hr
        obtain ⟨c2, hc2, hg⟩ := ih r hr
        exact ⟨c2, List.mem_cons_of_mem _ hc2, hg⟩
      | false =>
        simp only [loopAppended, hfc, he, Bool.false_eq_true, if_false,
          List.mem_append] at hr
        rcases hr with hr | hr
        · refine ⟨c, List.mem_cons_self _ _, ?_⟩
          simp only [attachMetadata, List.mem_map] at hr
          obtain ⟨o, _, ho⟩ := hr
          rw [← ho]
        · obtain ⟨c2, hc2, hg⟩ := ih r hr
          exact ⟨c2, List.mem_cons_of_mem _ hc2, hg⟩

theorem attachMetadata_triples (c : CityRow) (y : YearArg) (obs : List Obs) :
    (attachMetadata c y obs).map tripleOf
      = obs.map (fun o => (c.geo_code, o.search_term, o.date)) := by
  simp [attachMetadata, tripleOf, List.map_map, Function.comp]

theorem loopAppended_triples_nodup (f : CityRow → Except Unit (List Obs))
    (y : YearArg) :
    ∀ (cs : List CityRow),
      (cs.map (fun c => c.geo_code)).Nodup →
      (∀ c obs, f c = Except.ok obs →
        (obs.map (fun o => (o.search_term, o.date))).Nodup) →
      ((loopAppended f y cs).map tripleOf).Nodup := by
  intro cs
  induction cs with
  | nil => intro _ _; simp [loopAppended]
  | cons c rest ih =>
    intro hgeos hf
    have hghead : c.geo_code ∉ rest.map (fun c2 => c2.geo_code) :=
      (List.nodup_cons.mp (by simpa using hgeos)).1
    have hgtail : (rest.map (fun c2 => c2.geo_code)).Nodup :=
      (List.nodup_cons.mp (by simpa using hgeos)).2
    cases hfc : f c with
    | error e => simp [loopAppended, hfc]
    | ok obs =>
      cases he : obs.isEmpty with
      | true =>
        simp only [loopAppended, hfc, he, if_true]
        exact ih hgtail hf
      | false =>
        simp only [loopAppended, hfc, he, Bool.false_eq_true, if_false,
          List.map_append]
        refine List.Nodup.append ?_ (ih hgtail hf) ?_
        · rw [attachMetadata_triples]
          have hkeys := hf c obs hfc
          have : obs.map (fun o => (c.geo_code, o.search_term, o.date))
              = (obs.map (fun o => (o.search_term, o.date))).map
                  (fun p => (c.geo_code, p.1, p.2)) := by
            simp [List.map_map, Function.comp]
          rw [this]
          refine List.Nodup.map ?_ hkeys
          intro p q hpq
          simpa using hpq
        · intro t ht1 ht2
          rw [attachMetadata_triples] at ht1
          simp only [List.mem_map] at ht1 ht2
          obtain ⟨o, _, ho⟩ := ht1
          obtain ⟨r, hr, hrt⟩ := ht2
          obtain ⟨c2, hc2, hg2⟩ := mem_loopAppended_geo f y rest r hr
          apply hghead
          have : c.geo_code = r.geo_code := by
            rw [← ho] at hrt
            have := congrArg Prod.fst hrt
            simpa [tripleOf] using this.symm
          rw [this, hg2]
          exact List.mem_map_of_mem _ hc2

theorem mem_completedOfStore (st : Option (List StoreRow)) (a : String) :
    a ∈ completedOfStore st ↔ a ∈ (storeRows st).map (fun r => r.geo_code) := by
  simp [completedOfStore]

/- ==========================================
   Helper lemmas about the unit fetcher
   ========================================== -/

theorem fetchTermLoop_rateLimited (src : Nat → SourceResult) (dr : List Nat)
    (term : String) (h : ∀ i, src i = SourceResult.rateLimited) :
    ∀ (fuel rc : Nat), fetchTermLoop src dr term fuel rc
      = ⟨[], fuel, (List.range (fuel - 1)).map (fun k => 2 ^ (rc + 1 + k) * 60)⟩ := by
  intro fuel
  induction fuel with
  | zero => intro rc; simp [fetchTermLoop]
  | succ remaining ih =>
    intro rc
    cases remaining with
    | zero => simp [fetchTermLoop, h rc]
    | succ rem2 =>
      have hrec := ih (rc + 1)
      rw [fetchTermLoop.eq_2, h rc]
      have hexp : ∀ k, rc + 1 + 1 + k = rc + 1 + (k + 1) := by intro k; omega
      simp [hrec, List.range_succ_eq_map, List.map_map, Function.comp_def, hexp]

theorem fetchAll_rateLimited (src : String → Nat → SourceResult)
    (dr : List Nat) (mr : Nat)
    (h : ∀ t i, src t i = SourceResult.rateLimited) :
    ∀ kws, fetchAll src dr mr kws = [] := by
  intro kws
  induction kws with
  | nil => rfl
  | cons t ts ih =>
    simp [fetchAll, fetchTermRun,
      fetchTermLoop_rateLimited (src t) dr t (h t) mr 0, ih]

theorem fetchAll_skip (srcAll : String → Nat → SourceResult) (dr : List Nat)
    (mr : Nat) (term : String)
    (h : ∀ i, srcAll term i = SourceResult.rateLimited) :
    ∀ kws1 kws2, fetchAll srcAll dr mr (kws1 ++ term :: kws2)
      = fetchAll srcAll dr mr kws1 ++ fetchAll srcAll dr mr kws2 := by
  intro kws1 kws2
  induction kws1 with
  | nil =>
    simp [fetchAll, fetchTermRun,
      fetchTermLoop_rateLimited (srcAll term) dr term h mr 0]
  | cons t ts ih =>
    simp [fetchAll, ih, List.append_assoc]

/- ==========================================
   Claims C2, C3, C8: the unit fetcher
   ========================================== -/

/-- C2: for every keyword, source-attempt oracle and target year, if the
source returns an empty (no-data) result on the keyword's attempt, the unit
fetcher emits exactly one observation per week-ending-Sunday date of the
target year — the emitted date list is the Sunday list of the year, which has
no duplicates — each with metric value zero and carrying that keyword. -/
theorem zero_fill_full_year (src : Nat → SourceResult) (term : String)
    (y mr : Nat) (hmr : 0 < mr) (hsrc : src 0 = SourceResult.empty) :
    (fetchTermRun src (sundaysOfYear y) term mr).obs
        = (sundaysOfYear y).map (fun d => ⟨d, term, 0⟩) ∧
    ((fetchTermRun src (sundaysOfYear y) term mr).obs.map (fun o => o.date))
        = sundaysOfYear y ∧
    (sundaysOfYear y).Nodup ∧
    (∀ o ∈ (fetchTermRun src (sundaysOfYear y) term mr).obs,
        o.search_count = 0 ∧ o.search_term = term) := by
  cases mr with
  | zero => omega
  | succ m =>
    have hobs : (fetchTermRun src (sundaysOfYear y) term (Nat.succ m)).obs
        = (sundaysOfYear y).map (fun d => ⟨d, term, 0⟩) := by
      simp [fetchTermRun, fetchTermLoop, hsrc]
    refine ⟨hobs, ?_, sundaysOfYear_nodup y, ?_⟩
    · rw [hobs]
      simp [List.map_map, Function.comp_def]
    · intro o ho
      rw [hobs] at ho
      simp only [List.mem_map] at ho
      obtain ⟨d, _, hd⟩ := ho
      rw [← hd]
      exact ⟨rfl, rfl⟩

/-- Witness for C2 at a concrete input: keyword "X", year 2023, the default
max_retries = 3, and a source that answers every attempt with an empty frame. -/
theorem zero_fill_full_year_witness :
    0 < 3 ∧
    ((fetchTermRun (fun _ => SourceResult.empty) (sundaysOfYear 2023) "X" 3).obs
        = (sundaysOfYear 2023).map (fun d => ⟨d, "X", 0⟩) ∧
    ((fetchTermRun (fun _ => SourceResult.empty) (sundaysOfYear 2023) "X" 3).obs.map
        (fun o => o.date)) = sundaysOfYear 2023 ∧
    (sundaysOfYear 2023).Nodup ∧
    (∀ o ∈ (fetchTermRun (fun _ => SourceResult.empty) (sundaysOfYear 2023) "X" 3).obs,
        o.search_count = 0 ∧ o.search_term = "X")) :=
  ⟨by decide, zero_fill_full_year (fun _ => SourceResult.empty) "X" 2023 3
    (by decide) rfl⟩

/-- C3: when every network attempt signals rate limiting, the unit fetcher
makes exactly `max_retries` attempts for every keyword and then yields zero
observations for it; the whole fetch returns normally (`Except.ok []`), so no
exception is raised and no keyword aborts the remaining keywords. -/
theorem retry_bound_rate_limited (src : String → Nat → SourceResult)
    (geo : String) (kws : List String) (y mr : Nat)
    (h : ∀ t i, src t i = SourceResult.rateLimited) :
    fetch_city_trends src geo kws (YearArg.year y) mr = Except.ok [] ∧
    (∀ t, (fetchTermRun (src t) (sundaysOfYear y) t mr).attempts = mr ∧
          (fetchTermRun (src t) (sundaysOfYear y) t mr).obs = []) := by
  constructor
  · simp [fetch_city_trends, dateRangeOf,
      fetchAll_rateLimited src (sundaysOfYear y) mr h kws]
  · intro t
    rw [fetchTermRun, fetchTermLoop_rateLimited (src t) (sundaysOfYear y) t (h t) mr 0]
    exact ⟨rfl, rfl⟩

/-- Witness for C3 at a concrete input: the script's keyword list, year 2023,
max_retries = 3, and a source that rate-limits every attempt. -/
theorem retry_bound_rate_limited_witness :
    fetch_city_trends (fun _ _ => SourceResult.rateLimited) "US-A" SEARCH_TERMS
        (YearArg.year 2023) 3 = Except.ok [] ∧
    (∀ t, (fetchTermRun ((fun _ _ => SourceResult.rateLimited) t)
            (sundaysOfYear 2023) t 3).attempts = 3 ∧
          (fetchTermRun ((fun _ _ => SourceResult.rateLimited) t)
            (sundaysOfYear 2023) t 3).obs = []) :=
  retry_bound_rate_limited (fun _ _ => SourceResult.rateLimited) "US-A"
    SEARCH_TERMS 2023 3 (fun _ _ => rfl)

/-- C8: when every attempt for a keyword signals rate limiting, the fetcher
performs, between consecutive attempts, backoff sleeps of exactly
`2 ^ attempt * 60` seconds where `attempt` counts the attempts made so far
(the `k`-th recorded wait, 0-based, is `2 ^ (k + 1) * 60`); after the
`max_retries`-th attempt it records no further wait, skips the keyword (zero
observations), and the fetch of the entity's keyword list proceeds as if the
keyword were absent rather than aborting the entity. -/
theorem backoff_policy (srcAll : String → Nat → SourceResult) (dr : List Nat)
    (term : String) (kws1 kws2 : List String) (mr : Nat)
    (h : ∀ i, srcAll term i = SourceResult.rateLimited) :
    (fetchTermRun (srcAll term) dr term mr).waits
        = (List.range (mr - 1)).map (fun k => 2 ^ (k + 1) * 60) ∧
    (fetchTermRun (srcAll term) dr term mr).attempts = mr ∧
    (fetchTermRun (srcAll term) dr term mr).obs = [] ∧
    fetchAll srcAll dr mr (kws1 ++ term :: kws2)
        = fetchAll srcAll dr mr kws1 ++ fetchAll srcAll dr mr kws2 := by
  have hkey := fetchTermLoop_rateLimited (srcAll term) dr term h mr 0
  have hexp : ∀ k, 0 + 1 + k = k + 1 := by intro k; omega
  refine ⟨?_, ?_, ?_, fetchAll_skip srcAll dr mr term h kws1 kws2⟩
  · rw [fetchTermRun, hkey]
    simp [hexp]
  · rw [fetchTermRun, hkey]
  · rw [fetchTermRun, hkey]

/-- Witness for C8 at a concrete input: keyword "X" between two of the
script's keywords, max_retries = 3, always-rate-limited source; the recorded
waits are 120 and 240 seconds. -/
theorem backoff_policy_witness :
    (fetchTermRun ((fun _ _ => SourceResult.rateLimited) "X")
        (sundaysOfYear 2023) "X" 3).waits
        = (List.range 2).map (fun k => 2 ^ (k + 1) * 60) ∧
    (fetchTermRun ((fun _ _ => SourceResult.rateLimited) "X")
        (sundaysOfYear 2023) "X" 3).attempts = 3 ∧
    (fetchTermRun ((fun _ _ => SourceResult.rateLimited) "X")
        (sundaysOfYear 2023) "X" 3).obs = [] ∧
    fetchAll (fun _ _ => SourceResult.rateLimited) (sundaysOfYear 2023) 3
        (["Fishing"] ++ "X" :: ["Ice Fishing"])
        = fetchAll (fun _ _ => SourceResult.rateLimited) (sundaysOfYear 2023) 3
            ["Fishing"]
          ++ fetchAll (fun _ _ => SourceResult.rateLimited) (sundaysOfYear 2023) 3
            ["Ice Fishing"] :=
  backoff_policy (fun _ _ => SourceResult.rateLimited) (sundaysOfYear 2023) "X"
    ["Fishing"] ["Ice Fishing"] 3 (fun _ => rfl)

/- ==========================================
   Claims C5, C6: per-entity outcomes in the main loop
   ========================================== -/

theorem runLoop_break (f : CityRow → Except Unit (List Obs)) (y : YearArg)
    (c : CityRow) (post : List CityRow) (hc : f c = Except.error ()) :
    ∀ (pre : List CityRow) (st : Option (List StoreRow)) (s0 f0 : Nat),
      runLoop f y (pre ++ c :: post) st s0 f0
        = runLoop f y (pre ++ [c]) st s0 f0 := by
  intro pre
  induction pre with
  | nil =>
    intro st s0 f0
    simp [runLoop, hc]
  | cons p pre2 ih =>
    intro st s0 f0
    cases hfp : f p with
    | error e => simp [runLoop, hfp]
    | ok obs =>
      cases he : obs.isEmpty with
      | true => simp [runLoop, hfp, he, ih]
      | false => simp [runLoop, hfp, he, ih]

theorem runLoop_error_last (f : CityRow → Except Unit (List Obs)) (y : YearArg)
    (c : CityRow) (hc : f c = Except.error ()) :
    ∀ (pre : List CityRow), (∀ p ∈ pre, ∃ obs, f p = Except.ok obs) →
      ∀ (st : Option (List StoreRow)) (s0 f0 : Nat),
        (runLoop f y (pre ++ [c]) st s0 f0).store
            = (runLoop f y pre st s0 f0).store ∧
        (runLoop f y (pre ++ [c]) st s0 f0).successful
            = (runLoop f y pre st s0 f0).successful ∧
        (runLoop f y (pre ++ [c]) st s0 f0).failed
            = (runLoop f y pre st s0 f0).failed + 1 ∧
        (runLoop f y (pre ++ [c]) st s0 f0).crashed = true := by
  intro pre
  induction pre with
  | nil =>
    intro _ st s0 f0
    simp [runLoop, hc]
  | cons p pre2 ih =>
    intro hpre st s0 f0
    obtain ⟨obs, hobs⟩ := hpre p (List.mem_cons_self _ _)
    have hpre2 : ∀ q ∈ pre2, ∃ obs2, f q = Except.ok obs2 :=
      fun q hq => hpre q (List.mem_cons_of_mem _ hq)
    cases he : obs.isEmpty with
    | true => simpa [runLoop, hobs, he] using ih hpre2 st s0 (f0 + 1)
    | false =>
      simpa [runLoop, hobs, he] using
        ih hpre2 (appendStore st (attachMetadata p y obs)) (s0 + 1) f0

/-- C5: if an unexpected exception escapes the per-entity handling at entity
`c` (after a prefix `pre` of entities whose fetches returned normally), then
the run is the same whatever entities `post` would have followed (no further
entity is fetched or appended), the store is exactly the store after the
prefix (all rows appended before the failure, and nothing else), the failing
entity is counted in `failed_cities` and the loop reports the crash, and the
failing entity's code is not in the completed-set afterwards. -/
theorem critical_failure_halts (f : CityRow → Except Unit (List Obs))
    (y : YearArg) (pre post : List CityRow) (c : CityRow)
    (st : Option (List StoreRow))
    (hpre : ∀ p ∈ pre, ∃ obs, f p = Except.ok obs)
    (hc : f c = Except.error ())
    (hgeo : c.geo_code ∉ completedOfStore ((runLoop f y pre st 0 0).store)) :
    runLoop f y (pre ++ c :: post) st 0 0 = runLoop f y (pre ++ [c]) st 0 0 ∧
    (runLoop f y (pre ++ c :: post) st 0 0).store
        = (runLoop f y pre st 0 0).store ∧
    (runLoop f y (pre ++ c :: post) st 0 0).successful
        = (runLoop f y pre st 0 0).successful ∧
    (runLoop f y (pre ++ c :: post) st 0 0).failed
        = (runLoop f y pre st 0 0).failed + 1 ∧
    (runLoop f y (pre ++ c :: post) st 0 0).crashed = true ∧
    c.geo_code ∉ completedOfStore ((runLoop f y (pre ++ c :: post) st 0 0).store) := by
  have hbreak := runLoop_break f y c post hc pre st 0 0
  obtain ⟨h1, h2, h3, h4⟩ := runLoop_error_last f y c hc pre hpre st 0 0
  refine ⟨hbreak, ?_, ?_, ?_, ?_, ?_⟩
  · rw [hbreak, h1]
  · rw [hbreak, h2]
  · rw [hbreak, h3]
  · rw [hbreak, h4]
  · rw [hbreak, h1]
    exact hgeo

/-- Witness for C5 at a concrete input: a one-city batch whose fetch raises,
over an absent store. -/
theorem critical_failure_halts_witness :
    (∀ p ∈ ([] : List CityRow),
        ∃ obs, (fun _ => (Except.error () : Except Unit (List Obs))) p
          = Except.ok obs) ∧
    ((fun _ => (Except.error () : Except Unit (List Obs)))
        (CityRow.mk "A" "US-A" "USA" "S" 40 (-70)) = Except.error ()) ∧
    ("US-A" ∉ completedOfStore ((runLoop
        (fun _ => (Except.error () : Except Unit (List Obs))) YEAR [] none 0 0).store)) ∧
    (runLoop (fun _ => (Except.error () : Except Unit (List Obs))) YEAR
        ([] ++ CityRow.mk "A" "US-A" "USA" "S" 40 (-70) :: []) none 0 0).failed
      = (runLoop (fun _ => (Except.error () : Except Unit (List Obs))) YEAR
        [] none 0 0).failed + 1 := by
  refine ⟨?_, rfl, ?_, ?_⟩
  · intro p hp
    simp at hp
  · decide
  · exact (critical_failure_halts
      (fun _ => (Except.error () : Except Unit (List Obs))) YEAR [] []
      (CityRow.mk "A" "US-A" "USA" "S" 40 (-70)) none
      (fun p hp => by simp at hp) rfl (by decide)).2.2.2.1

theorem runLoop_skip_empty (f : CityRow → Except Unit (List Obs)) (y : YearArg)
    (c : CityRow) (post : List CityRow) (hc : f c = Except.ok []) :
    ∀ (pre : List CityRow), (∀ p ∈ pre, ∃ obs, f p = Except.ok obs) →
      ∀ (st : Option (List StoreRow)) (s0 f0 : Nat),
        (runLoop f y (pre ++ c :: post) st s0 f0).store
            = (runLoop f y (pre ++ post) st s0 f0).store ∧
        (runLoop f y (pre ++ c :: post) st s0 f0).successful
            = (runLoop f y (pre ++ post) st s0 f0).successful ∧
        (runLoop f y (pre ++ c :: post) st s0 f0).failed
            = (runLoop f y (pre ++ post) st s0 f0).failed + 1 ∧
        (runLoop f y (pre ++ c :: post) st s0 f0).crashed
            = (runLoop f y (pre ++ post) st s0 f0).crashed := by
  intro pre
  induction pre with
  | nil =>
    intro _ st s0 f0
    obtain ⟨a1, b1, c1, d1⟩ := runLoop_shift f y post st s0 (f0 + 1)
    obtain ⟨a2, b2, c2, d2⟩ := runLoop_shift f y post st s0 f0
    simp only [List.nil_append, runLoop, hc, List.isEmpty_nil, if_true]
    refine ⟨?_, ?_, ?_, ?_⟩
    · rw [d1, d2]
    · rw [a1, a2]
    · rw [b1, b2]; omega
    · rw [c1, c2]
  | cons p pre2 ih =>
    intro hpre st s0 f0
    obtain ⟨obs, hobs⟩ := hpre p (List.mem_cons_self _ _)
    have hpre2 : ∀ q ∈ pre2, ∃ obs2, f q = Except.ok obs2 :=
      fun q hq => hpre q (List.mem_cons_of_mem _ hq)
    cases he : obs.isEmpty with
    | true => simpa [runLoop, hobs, he] using ih hpre2 st s0 (f0 + 1)
    | false =>
      simpa [runLoop, hobs, he] using
        ih hpre2 (appendStore st (attachMetadata p y obs)) (s0 + 1) f0

/-- C6: an entity `c` whose fetch returns no observations at all contributes
nothing to the durable store — the run's store (and success count) is the
same as if `c` had not been in the batch, only `failed_cities` is one higher —
`c` is not marked completed, and `c` is still in the remaining-work list a
next invocation would compute from the resulting store. -/
theorem empty_fetch_no_write (f : CityRow → Except Unit (List Obs))
    (y : YearArg) (catalog pre post : List CityRow) (c : CityRow)
    (st : Option (List StoreRow))
    (hpre : ∀ p ∈ pre, ∃ obs, f p = Except.ok obs)
    (hc : f c = Except.ok [])
    (hgeo : ∀ p ∈ pre ++ post, p.geo_code ≠ c.geo_code)
    (hst : c.geo_code ∉ completedOfStore st)
    (hcat : c ∈ catalog) :
    (runLoop f y (pre ++ c :: post) st 0 0).store
        = (runLoop f y (pre ++ post) st 0 0).store ∧
    (runLoop f y (pre ++ c :: post) st 0 0).successful
        = (runLoop f y (pre ++ post) st 0 0).successful ∧
    (runLoop f y (pre ++ c :: post) st 0 0).failed
        = (runLoop f y (pre ++ post) st 0 0).failed + 1 ∧
    c.geo_code ∉ completedOfStore ((runLoop f y (pre ++ c :: post) st 0 0).store) ∧
    c ∈ remainingCities catalog
        (completedOfStore ((runLoop f y (pre ++ c :: post) st 0 0).store)) := by
  obtain ⟨h1, h2, h3, _⟩ := runLoop_skip_empty f y c post hc pre hpre st 0 0
  have hnot : c.geo_code
      ∉ completedOfStore ((runLoop f y (pre ++ post) st 0 0).store) := by
    rw [mem_completedOfStore, runLoop_storeRows, List.map_append,
      List.mem_append]
    rintro (hmem | hmem)
    · exact hst ((mem_completedOfStore st c.geo_code).mpr hmem)
    · simp only [List.mem_map] at hmem
      obtain ⟨r, hr, hrg⟩ := hmem
      obtain ⟨c2, hc2, hg2⟩ := mem_loopAppended_geo f y (pre ++ post) r hr
      exact hgeo c2 hc2 (by rw [← hg2, hrg])
  refine ⟨h1, h2, h3, ?_, ?_⟩
  · rw [h1]
    exact hnot
  · rw [h1]
    simp only [remainingCities, List.mem_filter, decide_eq_true_eq]
    exact ⟨hcat, hnot⟩

/-- Witness for C6 at a concrete input: a one-city batch whose fetch returns
an empty observation list, over an absent store. -/
theorem empty_fetch_no_write_witness :
    (∀ p ∈ ([] : List CityRow),
        ∃ obs, (fun _ => (Except.ok [] : Except Unit (List Obs))) p
          = Except.ok obs) ∧
    ((fun _ => (Except.ok [] : Except Unit (List Obs)))
        (CityRow.mk "A" "US-A" "USA" "S" 40 (-70)) = Except.ok []) ∧
    (∀ p ∈ ([] : List CityRow) ++ ([] : List CityRow),
        p.geo_code ≠ "US-A") ∧
    ("US-A" ∉ completedOfStore (none : Option (List StoreRow))) ∧
    (CityRow.mk "A" "US-A" "USA" "S" 40 (-70)
        ∈ [CityRow.mk "A" "US-A" "USA" "S" 40 (-70)]) ∧
    CityRow.mk "A" "US-A" "USA" "S" 40 (-70) ∈ remainingCities
      [CityRow.mk "A" "US-A" "USA" "S" 40 (-70)]
      (completedOfStore ((runLoop (fun _ => (Except.ok [] : Except Unit (List Obs)))
        YEAR ([] ++ CityRow.mk "A" "US-A" "USA" "S" 40 (-70) :: []) none 0 0).store)) := by
  refine ⟨?_, rfl, ?_, ?_, ?_, ?_⟩
  · intro p hp; simp at hp
  · intro p hp; simp at hp
  · decide
  · decide
  · exact (empty_fetch_no_write (fun _ => (Except.ok [] : Except Unit (List Obs)))
      YEAR [CityRow.mk "A" "US-A" "USA" "S" 40 (-70)] [] []
      (CityRow.mk "A" "US-A" "USA" "S" 40 (-70)) none
      (fun p hp => by simp at hp) rfl (fun p hp => by simp at hp)
      (by decide) (by decide)).2.2.2.2

/- ==========================================
   Claim C4: idempotence across two runs
   ========================================== -/

theorem triples_disjoint_of_geo (l1 l2 : List StoreRow)
    (h : ∀ r1 ∈ l1, ∀ r2 ∈ l2, r1.geo_code ≠ r2.geo_code) :
    (l1.map tripleOf).Disjoint (l2.map tripleOf) := by
  intro t ht1 ht2
  simp only [List.mem_map] at ht1 ht2
  obtain ⟨r1, hr1, hrt1⟩ := ht1
  obtain ⟨r2, hr2, hrt2⟩ := ht2
  apply h r1 hr1 r2 hr2
  have : tripleOf r1 = tripleOf r2 := by rw [hrt1, hrt2]
  exact congrArg Prod.fst this

theorem processed_geos_nodup (catalog : List CityRow) (comp : Finset String)
    (q : Nat) (hcat : (catalog.map (fun c => c.geo_code)).Nodup) :
    (((remainingCities catalog comp).take q).map (fun c => c.geo_code)).Nodup := by
  have h1 : List.Sublist
      ((remainingCities catalog comp).map (fun c => c.geo_code))
      (catalog.map (fun c => c.geo_code)) :=
    (List.filter_sublist _).map _
  have h2 : List.Sublist
      (((remainingCities catalog comp).take q).map (fun c => c.geo_code))
      ((remainingCities catalog comp).map (fun c => c.geo_code)) :=
    (List.take_sublist _ _).map _
  exact hcat.sublist (h2.trans h1)

theorem mem_processed_not_completed (catalog : List CityRow)
    (comp : Finset String) (q : Nat) (c : CityRow)
    (hc : c ∈ (remainingCities catalog comp).take q) :
    c.geo_code ∉ comp := by
  have hmem : c ∈ remainingCities catalog comp := List.take_subset _ _ hc
  simp only [remainingCities, List.mem_filter, decide_eq_true_eq] at hmem
  exact hmem.2

theorem mem_storeRows_completed (st : Option (List StoreRow)) (r : StoreRow)
    (hr : r ∈ storeRows st) : r.geo_code ∈ completedOfStore st := by
  rw [mem_completedOfStore]
  exact List.mem_map_of_mem _ hr

theorem completedOfStore_runLoop (f : CityRow → Except Unit (List Obs))
    (y : YearArg) (cs : List CityRow) (st : Option (List StoreRow))
    (s0 f0 : Nat) :
    completedOfStore ((runLoop f y cs st s0 f0).store)
      = completedOfStore st
        ∪ ((loopAppended f y cs).map (fun r => r.geo_code)).toFinset := by
  unfold completedOfStore
  rw [runLoop_storeRows, List.map_append, List.toFinset_append]

/-- The rows of a store produced by one loop run over the processed city list
`cs` have pairwise-distinct (geo code, keyword, week) triples, provided the
incoming store does, the processed cities' codes are distinct and not yet in
the incoming completed-set, and every fetch result has distinct
(keyword, date) pairs. -/
theorem runLoop_triples_nodup (f : CityRow → Except Unit (List Obs))
    (y : YearArg) (cs : List CityRow) (st : Option (List StoreRow))
    (s0 f0 : Nat)
    (hst : (storeTriples st).Nodup)
    (hgeos : (cs.map (fun c => c.geo_code)).Nodup)
    (hnew : ∀ c ∈ cs, c.geo_code ∉ completedOfStore st)
    (hfetch : ∀ c obs, f c = Except.ok obs →
      (obs.map (fun o => (o.search_term, o.date))).Nodup) :
    (storeTriples ((runLoop f y cs st s0 f0).store)).Nodup := by
  unfold storeTriples
  rw [runLoop_storeRows, List.map_append]
  refine List.Nodup.append hst (loopAppended_triples_nodup f y cs hgeos hfetch) ?_
  refine triples_disjoint_of_geo _ _ ?_
  intro r1 hr1 r2 hr2
  obtain ⟨c2, hc2, hg2⟩ := mem_loopAppended_geo f y cs r2 hr2
  intro heq
  apply hnew c2 hc2
  rw [← hg2, ← heq]
  exact mem_storeRows_completed st r1 hr1

/-- C4: running the driver twice in sequence over the same durable store with
an unchanged catalog (whose codes are unique) and any fetch behaviour whose
successful results carry distinct (keyword, week) pairs never produces two
rows sharing an (entity code, keyword, week) triple — the final store's triples
are pairwise distinct whenever the initial store's were — and the
remaining-work set after the second run is contained in the remaining-work
set after the first. -/
theorem driver_idempotent_no_duplicates (f : CityRow → Except Unit (List Obs))
    (y : YearArg) (catalog : List CityRow) (quota : Nat)
    (st : Option (List StoreRow))
    (hcat : (catalog.map (fun c => c.geo_code)).Nodup)
    (hfetch : ∀ c obs, f c = Except.ok obs →
      (obs.map (fun o => (o.search_term, o.date))).Nodup)
    (hst : (storeTriples st).Nodup) :
    (storeTriples ((run_driver f y catalog quota
        ((run_driver f y catalog quota st).store)).store)).Nodup ∧
    remainingSet catalog
        ((run_driver f y catalog quota
          ((run_driver f y catalog quota st).store)).store)
      ⊆ remainingSet catalog ((run_driver f y catalog quota st).store) := by
  constructor
  · have hnd1 : (storeTriples ((run_driver f y catalog quota st).store)).Nodup := by
      unfold run_driver
      refine runLoop_triples_nodup f y _ st 0 0 hst
        (processed_geos_nodup catalog _ quota hcat) ?_ hfetch
      intro c hc
      exact mem_processed_not_completed catalog _ quota c hc
    unfold run_driver
    refine runLoop_triples_nodup f y _ _ 0 0 hnd1
      (processed_geos_nodup catalog _ quota hcat) ?_ hfetch
    intro c hc
    exact mem_processed_not_completed catalog _ quota c hc
  · unfold remainingSet
    refine Finset.sdiff_subset_sdiff (Finset.Subset.refl _) ?_
    unfold run_driver
    simp only [completedOfStore_runLoop]
    apply Finset.subset_union_left

/-- Witness for C4 at a concrete input: a two-city catalog, quota 2, an
absent store, and a fetch that returns one observation row for every city. -/
theorem driver_idempotent_no_duplicates_witness :
    (([cityA, cityB].map (fun c => c.geo_code)).Nodup) ∧
    (∀ c obs, fetchOneRow c = Except.ok obs →
      (obs.map (fun o => (o.search_term, o.date))).Nodup) ∧
    (storeTriples (none : Option (List StoreRow))).Nodup ∧
    (storeTriples ((run_driver fetchOneRow (YearArg.year 2023) [cityA, cityB] 2
        ((run_driver fetchOneRow (YearArg.year 2023) [cityA, cityB] 2
          none).store)).store)).Nodup := by
  have hfetch : ∀ c obs, fetchOneRow c = Except.ok obs →
      (obs.map (fun o => (o.search_term, o.date))).Nodup := by
    intro c obs h
    simp only [fetchOneRow, Except.ok.injEq] at h
    rw [← h]
    decide
  refine ⟨by decide, hfetch, by decide, ?_⟩
  exact (driver_idempotent_no_duplicates fetchOneRow (YearArg.year 2023)
    [cityA, cityB] 2 none (by decide) hfetch (by decide)).1

/- ==========================================
   Claims C1, C9: evaluations of the driver with the script's YEAR tuple
   ========================================== -/

/-- C1 (evaluation at the claim's input, exhibiting the divergence): 2023 has
53 week-ending Sundays, and with a single-entity catalog {US-A, lat 40,
lon -70}, keyword list ["X"] and an always-empty source, a driver run whose
`year` argument is a single year 2023 would append exactly 53 rows, all with
search_count 0, search_term "X" and geo_code "US-A", and complete {US-A};
but the script's actual `YEAR = 2021, 2022, 2023, 2024` is a tuple, on which
`pd.date_range` raises before the keyword loop, so the real invocation
appends no row at all, counts the entity as a critical failure, stops, and
the completed-set stays empty. -/
theorem end_to_end_year_tuple_failure :
    (sundaysOfYear 2023).length = 53 ∧
    (storeRows ((run_driver
        (fun c => fetch_city_trends srcEmptyOracle c.geo_code ["X"]
          (YearArg.year 2023) 3)
        (YearArg.year 2023) [cityUS_A] MAX_CITIES_PER_RUN none).store)).length = 53 ∧
    (∀ r ∈ storeRows ((run_driver
        (fun c => fetch_city_trends srcEmptyOracle c.geo_code ["X"]
          (YearArg.year 2023) 3)
        (YearArg.year 2023) [cityUS_A] MAX_CITIES_PER_RUN none).store),
      r.search_count = 0 ∧ r.search_term = "X" ∧ r.geo_code = "US-A") ∧
    completedOfStore ((run_driver
        (fun c => fetch_city_trends srcEmptyOracle c.geo_code ["X"]
          (YearArg.year 2023) 3)
        (YearArg.year 2023) [cityUS_A] MAX_CITIES_PER_RUN none).store)
      = {"US-A"} ∧
    run_driver
        (fun c => fetch_city_trends srcEmptyOracle c.geo_code ["X"] YEAR 3)
        YEAR [cityUS_A] MAX_CITIES_PER_RUN none
      = RunResult.mk none 0 1 true ∧
    completedOfStore ((run_driver
        (fun c => fetch_city_trends srcEmptyOracle c.geo_code ["X"] YEAR 3)
        YEAR [cityUS_A] MAX_CITIES_PER_RUN none).store)
      = (∅ : Finset String) := by
  refine ⟨by decide, by decide, by decide, by decide, by decide, by decide⟩

/-- C9 (evaluation at a failing input, exhibiting the divergence): with a
three-city catalog, an absent store (remaining-work set of size 3) and a
per-run quota of 2, the claim asserts exactly 2 entities are attempted; but
because `YEAR` is the 4-tuple, `fetch_city_trends` raises on the first
entity's `pd.date_range`, the per-entity `except` counts it failed and
`break`s, so exactly one entity is attempted. -/
theorem quota_violated_by_year_tuple :
    2 < (remainingCities catalog3 (completedOfStore none)).length ∧
    (run_driver
        (fun c => fetch_city_trends srcEmptyOracle c.geo_code SEARCH_TERMS YEAR 3)
        YEAR catalog3 2 none).successful
      + (run_driver
        (fun c => fetch_city_trends srcEmptyOracle c.geo_code SEARCH_TERMS YEAR 3)
        YEAR catalog3 2 none).failed = 1 ∧
    (run_driver
        (fun c => fetch_city_trends srcEmptyOracle c.geo_code SEARCH_TERMS YEAR 3)
        YEAR catalog3 2 none).crashed = true := by
  refine ⟨by decide, by decide, by decide⟩

/- ==========================================
   Claims C7, C10: the progress tracker on raw store files
   ========================================== -/

/-- C7: `get_completed_cities` returns the empty set without raising when the
store file is absent, when it is structurally empty (`EmptyDataError`), and
when it parses but lacks the `geo_code` column; in all three cases the script
proceeds past the progress tracker rather than failing. -/
theorem completed_cities_graceful (cols geoVals : List String)
    (src : String → String → Nat → SourceResult) (yearArg : YearArg)
    (catalog : List CityRow) (quota : Nat)
    (h : "geo_code" ∉ cols) :
    get_completed_cities StoreFile.absent = Except.ok ∅ ∧
    get_completed_cities (StoreFile.present FileContent.emptyContent)
      = Except.ok ∅ ∧
    get_completed_cities (StoreFile.present (FileContent.otherTable cols geoVals))
      = Except.ok ∅ ∧
    exceptIsOk (script_run src yearArg catalog quota StoreFile.absent) = true ∧
    exceptIsOk (script_run src yearArg catalog quota
      (StoreFile.present FileContent.emptyContent)) = true ∧
    exceptIsOk (script_run src yearArg catalog quota
      (StoreFile.present (FileContent.otherTable cols geoVals))) = true := by
  refine ⟨rfl, rfl, ?_, rfl, rfl, ?_⟩
  · simp [get_completed_cities, h]
  · simp [script_run, get_completed_cities, h, exceptIsOk]

/-- Witness for C7 at a concrete input: a parsed table whose only column is
`date`, an always-empty source, year 2023, an empty catalog and quota 0. -/
theorem completed_cities_graceful_witness :
    ("geo_code" ∉ ["date"]) ∧
    (get_completed_cities StoreFile.absent = Except.ok ∅ ∧
    get_completed_cities (StoreFile.present FileContent.emptyContent)
      = Except.ok ∅ ∧
    get_completed_cities (StoreFile.present (FileContent.otherTable ["date"] []))
      = Except.ok ∅ ∧
    exceptIsOk (script_run scriptSrcEmpty (YearArg.year 2023) [] 0
      StoreFile.absent) = true ∧
    exceptIsOk (script_run scriptSrcEmpty (YearArg.year 2023) [] 0
      (StoreFile.present FileContent.emptyContent)) = true ∧
    exceptIsOk (script_run scriptSrcEmpty (YearArg.year 2023) [] 0
      (StoreFile.present (FileContent.otherTable ["date"] []))) = true) :=
  ⟨by decide, completed_cities_graceful ["date"] [] scriptSrcEmpty
    (YearArg.year 2023) [] 0 (by decide)⟩

/-- C10: when the store file exists but `pd.read_csv` fails with anything
other than `EmptyDataError`, the exception propagates out of
`get_completed_cities` and the script fails before any entity is processed,
for every source behaviour, year argument, catalog and quota. -/
theorem malformed_store_propagates (src : String → String → Nat → SourceResult)
    (yearArg : YearArg) (catalog : List CityRow) (quota : Nat) :
    get_completed_cities (StoreFile.present FileContent.malformed)
      = Except.error () ∧
    script_run src yearArg catalog quota (StoreFile.present FileContent.malformed)
      = Except.error () :=
  ⟨rfl, rfl⟩

end FisheriesTrends
